import Mathlib

/-!
# Verification of the PTV API client request pipeline

A shallow embedding, in Lean 4, of the request-construction and
authentication pipeline of `ptv/client.py`:

* `Value`, `Params` — the dynamically typed parameter values placed into the
  Python `params` dict, and the insertion-ordered dict itself;
* `quote` / `quote_plus` / `urlencode` — `urllib.parse` percent-encoding with
  `doseq=True`, as the source invokes it;
* `sha1` / `hmacSha1` / `calculateSignature` — a pure SHA-1 and HMAC over byte
  lists (naturals `< 256`), mirroring `hmac.new(key, raw, sha1).hexdigest().upper()`;
* `getUrl` — `PTVClient._getUrl`, modelled with explicit state passing because
  the Python function mutates the dict supplied by the caller;
* `callApi` — the status check / JSON-decode split of `PTVClient._callApi`,
  parameterised over the external JSON parser;
* the client facade methods the claims exercise (`get_departures_from_stop`,
  `search`, `get_stops_for_location`, `get_outlets`).

Machine words are `Nat` with explicit reduction modulo `2^32`; bytes are `Nat`
kept `< 256` by construction.
-/

/-! ## Python values and the parameter dict -/

/-- A dynamically typed scalar Python value. -/
inductive Scalar where
  | str (s : String)
  | int (n : Int)
  | bool (b : Bool)
  deriving DecidableEq, Repr

/-- A dynamically typed Python value, as placed into the `params` dict by the
client methods: a scalar, or a list of scalars (the client never nests
lists). -/
inductive Value where
  | str (s : String)
  | int (n : Int)
  | bool (b : Bool)
  | list (elems : List Scalar)
  deriving DecidableEq, Repr

/-- Python `str` of a scalar. -/
def scalarStr : Scalar → String
  | .str s => s
  | .int n => toString n
  | .bool b => if b then "True" else "False"

/-- Python `repr` of a scalar, as used by `str` on a list: strings are
wrapped in single quotes. -/
def scalarRepr : Scalar → String
  | .str s => "\x27" ++ s ++ "\x27"
  | .int n => toString n
  | .bool b => if b then "True" else "False"

/-- Python truthiness (`if x:`) for the values above: empty string, zero,
`False` and the empty list are falsy. -/
def pyTruthy : Value → Bool
  | .str s => !(s == "")
  | .int n => !(n == 0)
  | .bool b => b
  | .list l => !l.isEmpty

/-- Truthiness of an optional argument: `None` is falsy, otherwise the value
decides (`if route_id:` where the default argument is `None`). -/
def optTruthy : Option Value → Bool
  | none => false
  | some v => pyTruthy v

/-- Python `str` of a value: the identity on strings, the decimal form on ints, the
capitalised form on bools, and the bracketed repr form on lists. -/
def pyStr : Value → String
  | .str s => s
  | .int n => toString n
  | .bool b => if b then "True" else "False"
  | .list l => "[" ++ String.intercalate ", " (l.map scalarRepr) ++ "]"

/-- Python `str` of an optional value (an `f`-string renders `None` as
`"None"`). -/
def pyStrOpt : Option Value → String
  | none => "None"
  | some v => pyStr v

/-- ASCII `str.lower()`. -/
def pyLower (s : String) : String := String.mk (s.data.map Char.toLower)

/-- ASCII `str.upper()`. -/
def pyUpper (s : String) : String := String.mk (s.data.map Char.toUpper)

/-- The insertion-ordered Python dict used for query parameters. -/
abbrev Params : Type := List (String × Value)

/-- Python dict assignment `d[k] = v`: overwrite in place if the key exists
(keeping its position), otherwise append at the end. -/
def dictInsert : Params → String → Value → Params
  | [], k, v => [(k, v)]
  | (k', v') :: rest, k, v =>
      if k' = k then (k', v) :: rest else (k', v') :: dictInsert rest k v

/-- Whether the dict already has the key. -/
def hasKey : Params → String → Bool
  | [], _ => false
  | (k', _) :: rest, k => k' == k || hasKey rest k

/-! ## `urllib.parse` percent-encoding -/

/-- The characters `urllib.parse` never encodes (`_ALWAYS_SAFE`): ASCII
letters, digits, and `_.-~`. -/
def alwaysSafe (c : Char) : Bool :=
  c.isAlpha || c.isDigit || c == '_' || c == '.' || c == '-' || c == '~'

/-- UTF-8 encoding of one character as bytes. -/
def utf8Char (c : Char) : List Nat :=
  let n := c.toNat
  if n < 128 then [n]
  else if n < 2048 then [192 + n / 64, 128 + n % 64]
  else if n < 65536 then [224 + n / 4096, 128 + n / 64 % 64, 128 + n % 64]
  else [240 + n / 262144, 128 + n / 4096 % 64, 128 + n / 64 % 64, 128 + n % 64]

/-- UTF-8 encoding of a string, as `bytes` with the UTF-8 codec produces. -/
def utf8Encode (s : String) : List Nat := s.data.flatMap utf8Char

/-- Uppercase hexadecimal digit for a nibble. -/
def hexUpperChar (n : Nat) : Char :=
  List.getD ("0123456789ABCDEF".data) n '0'

/-- Lowercase hexadecimal digit for a nibble. -/
def hexLowerChar (n : Nat) : Char :=
  List.getD ("0123456789abcdef".data) n '0'

/-- `%XX` escape (uppercase hex) of one byte, as `urllib.parse.quote`
produces. -/
def percentByte (b : Nat) : List Char :=
  '%' :: hexUpperChar (b / 16) :: [hexUpperChar (b % 16)]

/-- `urllib.parse.quote(s, safe)`: characters in `_ALWAYS_SAFE` or in `safe`
pass through, everything else is `%XX`-escaped per UTF-8 byte. -/
def pyQuoteSafe (safe : List Char) (s : String) : String :=
  String.mk (s.data.flatMap fun c =>
    if alwaysSafe c || safe.contains c then [c]
    else (utf8Char c).flatMap percentByte)

/-- `urllib.parse.quote(s)` with the default safe set (the slash), as used on the search
term path segment. -/
def pyQuote (s : String) : String := pyQuoteSafe ['/'] s

/-- `urllib.parse.quote_plus(s)` with an empty safe set, the default `quote_via` of
`urlencode`: spaces become `+`, everything unsafe is `%XX`-escaped. -/
def quotePlus (s : String) : String :=
  String.mk (s.data.flatMap fun c =>
    if c == ' ' then ['+']
    else if alwaysSafe c then [c]
    else (utf8Char c).flatMap percentByte)

/-- The `k=v` entries that `urllib.parse.urlencode(params, doseq=True)` emits
for one dict entry: a string value is quoted directly, a list yields one entry
per element (each element passed through `str` then quoted), and any other
scalar is passed through `str` then quoted — so a raw Python `True` becomes `"True"`. -/
def urlencodeEntry : String × Value → List String
  | (k, .str s) => [quotePlus k ++ "=" ++ quotePlus s]
  | (k, .list elems) =>
      elems.map (fun e => quotePlus k ++ "=" ++ quotePlus (scalarStr e))
  | (k, v) => [quotePlus k ++ "=" ++ quotePlus (pyStr v)]

/-- All `k=v` entries of `urlencode(params, doseq=True)`, in dict insertion
order. -/
def urlencodeList (params : Params) : List String :=
  params.flatMap urlencodeEntry

/-- `urllib.parse.urlencode(params, doseq=True)`: the entries joined with
`&`. -/
def urlencode (params : Params) : String :=
  String.intercalate "&" (urlencodeList params)

/-! ## SHA-1 and HMAC (`hashlib.sha1`, `hmac.new`) -/

/-- `2 ^ 32`, the word modulus. -/
def w32 : Nat := 4294967296

/-- Left rotation of a 32-bit word. -/
def rotl (n w : Nat) : Nat := ((w <<< n) % w32) ||| (w >>> (32 - n))

/-- The five-word SHA-1 working state. -/
structure SHA1State where
  a : Nat
  b : Nat
  c : Nat
  d : Nat
  e : Nat
  deriving DecidableEq, Repr

/-- The SHA-1 initial hash value. -/
def sha1Init : SHA1State :=
  ⟨0x67452301, 0xEFCDAB89, 0x98BADCFE, 0x10325476, 0xC3D2E1F0⟩

/-- The SHA-1 round function: choose, parity, majority, parity. -/
def sha1F (t b c d : Nat) : Nat :=
  if t < 20 then (b &&& c) ||| ((4294967295 ^^^ b) &&& d)
  else if t < 40 then b ^^^ c ^^^ d
  else if t < 60 then (b &&& c) ||| (b &&& d) ||| (c &&& d)
  else b ^^^ c ^^^ d

/-- The SHA-1 round constants. -/
def sha1K (t : Nat) : Nat :=
  if t < 20 then 0x5A827999
  else if t < 40 then 0x6ED9EBA1
  else if t < 60 then 0x8F1BBCDC
  else 0xCA62C1D6

/-- Extend the 16-word message schedule by `n` further words. -/
def sha1Extend (w : List Nat) : Nat → List Nat
  | 0 => w
  | n + 1 =>
      sha1Extend
        (w ++ [rotl 1 (w.getD (w.length - 3) 0 ^^^ w.getD (w.length - 8) 0 ^^^
          w.getD (w.length - 14) 0 ^^^ w.getD (w.length - 16) 0)]) n

/-- One SHA-1 round with schedule word `wt` at index `t`. -/
def sha1Round (wt t : Nat) (s : SHA1State) : SHA1State :=
  ⟨(rotl 5 s.a + sha1F t s.b s.c s.d + s.e + sha1K t + wt) % w32,
    s.a, rotl 30 s.b, s.c, s.d⟩

/-- Run the rounds for every remaining schedule word. -/
def sha1Rounds (w : List Nat) (t : Nat) (s : SHA1State) : SHA1State :=
  match w with
  | [] => s
  | wt :: rest => sha1Rounds rest (t + 1) (sha1Round wt t s)

/-- Big-endian 4-byte groups to 32-bit words. -/
def bytesToWords : List Nat → List Nat
  | b0 :: b1 :: b2 :: b3 :: rest =>
      (b0 * 16777216 + b1 * 65536 + b2 * 256 + b3) :: bytesToWords rest
  | _ => []

/-- Compress one 64-byte block into the state. -/
def sha1Compress (s : SHA1State) (block : List Nat) : SHA1State :=
  let w := sha1Extend (bytesToWords block) 64
  let r := sha1Rounds w 0 s
  ⟨(s.a + r.a) % w32, (s.b + r.b) % w32, (s.c + r.c) % w32,
    (s.d + r.d) % w32, (s.e + r.e) % w32⟩

/-- Big-endian 8-byte encoding of the bit length. -/
def lengthBytes (n : Nat) : List Nat :=
  [n / 72057594037927936 % 256, n / 281474976710656 % 256,
   n / 1099511627776 % 256, n / 4294967296 % 256,
   n / 16777216 % 256, n / 65536 % 256, n / 256 % 256, n % 256]

/-- SHA-1 padding: append `0x80`, zeros to 56 mod 64, then the bit length. -/
def sha1Pad (msg : List Nat) : List Nat :=
  msg ++ 128 :: List.replicate ((119 - msg.length % 64) % 64) 0 ++
    lengthBytes (msg.length * 8)

/-- Split into 64-byte blocks, with fuel for termination. -/
def chunks64 (fuel : Nat) (l : List Nat) : List (List Nat) :=
  match fuel with
  | 0 => []
  | fuel + 1 => if l.isEmpty then [] else l.take 64 :: chunks64 fuel (l.drop 64)

/-- The final SHA-1 state over a byte string. -/
def sha1Digest (msg : List Nat) : SHA1State :=
  let padded := sha1Pad msg
  (chunks64 padded.length padded).foldl sha1Compress sha1Init

/-- Big-endian bytes of a 32-bit word. -/
def wordToBytes (w : Nat) : List Nat :=
  [w / 16777216 % 256, w / 65536 % 256, w / 256 % 256, w % 256]

/-- The 20 digest bytes produced from a final state. -/
def stateToBytes (s : SHA1State) : List Nat :=
  wordToBytes s.a ++ wordToBytes s.b ++ wordToBytes s.c ++
    wordToBytes s.d ++ wordToBytes s.e

/-- SHA-1 of a byte string, as 20 bytes. -/
def sha1 (msg : List Nat) : List Nat := stateToBytes (sha1Digest msg)

/-- HMAC key preprocessing: hash keys longer than the 64-byte block, then
zero-pad to the block size. -/
def hmacKeyBlock (key : List Nat) : List Nat :=
  let k0 := if 64 < key.length then sha1 key else key
  k0 ++ List.replicate (64 - k0.length) 0

/-- `hmac.new(key, msg, sha1).digest()`. -/
def hmacSha1 (key msg : List Nat) : List Nat :=
  let k := hmacKeyBlock key
  let ipad := k.map (fun b => b ^^^ 54)
  let opad := k.map (fun b => b ^^^ 92)
  sha1 (opad ++ sha1 (ipad ++ msg))

/-- `.hexdigest()`: two lowercase hex digits per byte. -/
def hexDigest (bytes : List Nat) : String :=
  String.mk (bytes.flatMap fun b => [hexLowerChar (b / 16), hexLowerChar (b % 16)])

/-! ## `PTVClient` internals -/

/-- `PTVClient._calculateSignature`: HMAC-SHA1 of the UTF-8 path under the
UTF-8 API key, hex digest, upper-cased. -/
def calculateSignature (apiKey path : String) : String :=
  pyUpper (hexDigest (hmacSha1 (utf8Encode apiKey) (utf8Encode path)))

/-- The fixed base host. -/
def BASE_URL : String := "http://timetableapi.ptv.vic.gov.au"

/-- `PTVClient._getUrl`, with the dict mutation made explicit: the result is
the URL together with the updated `params` dict (the Python code assigns
the developer id into the dict supplied by the caller before encoding). -/
def getUrl (devId apiKey path : String) (params : Params) : String × Params :=
  let params2 := dictInsert params "devid" (Value.str devId)
  let query := "?" ++ urlencode params2
  (BASE_URL ++ path ++ query ++ "&signature=" ++
    calculateSignature apiKey (path ++ query), params2)

/-! ## `PTVClient._callApi`: status check and JSON decoding

The HTTP transport (`requests.get`) and the JSON codec (`response.json()`)
are external libraries; `_callApi` itself only sequences them:
`raise_for_status()` raises an `HTTPError` carrying the response for any
status in 400–599, and only afterwards is the body parsed as JSON (a parse
failure raises a decode error). The embedding takes the already-received
response and the external parser as inputs. -/

/-- A received HTTP response: status code and raw body. -/
structure HttpResponse where
  status : Nat
  body : String
  deriving DecidableEq, Repr

/-- The errors `_callApi` can surface: the `HTTPError` of
`raise_for_status()` (with the status and body of the response it carries),
or a JSON decode error. -/
inductive ApiError where
  | httpError (statusCode : Nat) (body : String)
  | decodeError (cause : String)
  deriving DecidableEq, Repr

/-- `requests.Response.raise_for_status()` raises exactly for 4xx and 5xx. -/
def isErrorStatus (status : Nat) : Bool := 400 ≤ status && status < 600

/-- `PTVClient._callApi` after the response has been received: fail with
`httpError` for a 4xx/5xx status before any parsing, otherwise parse the
body with the external JSON parser `parse`, turning a parse failure into a
`decodeError` — never a default value. -/
def callApi {α : Type} (parse : String → Except String α) (resp : HttpResponse) :
    Except ApiError α :=
  if isErrorStatus resp.status then
    Except.error (ApiError.httpError resp.status resp.body)
  else
    match parse resp.body with
    | Except.ok v => Except.ok v
    | Except.error c => Except.error (ApiError.decodeError c)

/-! ## Client facade methods

Each method assembles a path and a fresh `params` dict exactly as the Python
method does, returning the `(path, params)` pair that is handed to
`_callApi`. Optional arguments are `Option Value` (`none` is the Python
default `None`). -/

/-- `if x: params[k] = x` — the truthiness-guarded insertion used by most
endpoints. -/
def addIfTruthy (p : Params) (k : String) (v : Option Value) : Params :=
  match v with
  | some w => if pyTruthy w then dictInsert p k w else p
  | none => p

/-- `if x: params[k] = str(x).lower()`. -/
def addIfTruthyLower (p : Params) (k : String) (v : Option Value) : Params :=
  match v with
  | some w => if pyTruthy w then dictInsert p k (Value.str (pyLower (pyStr w))) else p
  | none => p

/-- `if x != None: params[k] = str(x).lower()` — the sentinel check used by
`search` and `get_stop` for their boolean flags. -/
def addIfSomeLower (p : Params) (k : String) (v : Option Value) : Params :=
  match v with
  | some w => dictInsert p k (Value.str (pyLower (pyStr w)))
  | none => p

/-- `PTVClient.get_departures_from_stop`: path and params construction. -/
def get_departures_from_stop (route_type stop_id : Int)
    (route_id platform_numbers direction_id look_backwards gtfs date_utc
      max_results include_cancelled expand : Option Value) : String × Params :=
  let path := "/v3/departures/route_type/" ++ toString route_type ++
    "/stop/" ++ toString stop_id
  let path := match route_id with
    | some r => if pyTruthy r then path ++ "/route/" ++ pyStr r else path
    | none => path
  let p := addIfTruthy [] "platform_numbers" platform_numbers
  let p := addIfTruthy p "direction_id" direction_id
  let p := addIfTruthy p "look_backwards" look_backwards
  let p := addIfTruthyLower p "gtfs" gtfs
  let p := addIfTruthy p "date_utc" date_utc
  let p := addIfTruthy p "max_results" max_results
  let p := addIfTruthyLower p "include_cancelled" include_cancelled
  let p := addIfTruthyLower p "expand" expand
  (path, p)

/-- `PTVClient.search`: path and params construction. -/
def search (search_term : String)
    (route_types latitude longitude max_distance include_addresses
      include_outlets match_stop_by_suburb match_route_by_suburb
      match_stop_by_gtfs_stop_id : Option Value) : String × Params :=
  let path := "/v3/search/" ++ pyQuote search_term
  let p := addIfTruthy [] "route_types" route_types
  let p := addIfTruthy p "latitude" latitude
  let p := addIfTruthy p "longitude" longitude
  let p := addIfTruthy p "max_distance" max_distance
  let p := addIfSomeLower p "include_addresses" include_addresses
  let p := addIfSomeLower p "include_outlets" include_outlets
  let p := addIfSomeLower p "match_stop_by_suburb" match_stop_by_suburb
  let p := addIfSomeLower p "match_route_by_suburb" match_route_by_suburb
  let p := addIfSomeLower p "match_stop_by_gtfs_stop_id" match_stop_by_gtfs_stop_id
  (path, p)

/-- `PTVClient.get_stops_for_location`: path and params construction. Note
`stop_disruptions` is inserted raw, without the `str(x).lower()` conversion
used elsewhere. -/
def get_stops_for_location (latitude longitude : Value)
    (route_types max_results max_distance stop_disruptions : Option Value) :
    String × Params :=
  let path := "/v3/stops/location/" ++ pyStr latitude ++ "," ++ pyStr longitude
  let p := addIfTruthy [] "route_types" route_types
  let p := addIfTruthy p "max_results" max_results
  let p := addIfTruthy p "max_distance" max_distance
  let p := addIfTruthy p "stop_disruptions" stop_disruptions
  (path, p)

/-- `PTVClient.get_outlets`: the location path segment is appended only when
both coordinates are truthy. -/
def get_outlets (latitude longitude max_distance max_results : Option Value) :
    String × Params :=
  let path := "/v3/outlets"
  let path :=
    if optTruthy latitude && optTruthy longitude then
      path ++ "/location/" ++ pyStrOpt latitude ++ "," ++ pyStrOpt longitude
    else path
  let p := addIfTruthy [] "max_distance" max_distance
  let p := addIfTruthy p "max_results" max_results
  (path, p)

/-! ## Supporting lemmas -/

/-- Assigning a fresh key into a dict appends it at the end. -/
theorem dictInsert_of_not_hasKey (p : Params) (k : String) (v : Value)
    (h : hasKey p k = false) : dictInsert p k v = p ++ [(k, v)] := by
  induction p with
  | nil => rfl
  | cons hd tl ih =>
      obtain ⟨k', v'⟩ := hd
      simp only [hasKey, Bool.or_eq_false_iff, beq_eq_false_iff_ne, ne_eq] at h
      simp [dictInsert, h.1, ih h.2]

/-- The emitted query entries distribute over dict concatenation. -/
theorem urlencodeList_append (p q : Params) :
    urlencodeList (p ++ q) = urlencodeList p ++ urlencodeList q := by
  simp [urlencodeList]

/-- Assigning the same key and value twice is the same as doing it once. -/
theorem dictInsert_idem (p : Params) (k : String) (v : Value) :
    dictInsert (dictInsert p k v) k v = dictInsert p k v := by
  induction p with
  | nil => simp [dictInsert]
  | cons hd tl ih =>
      obtain ⟨k', v'⟩ := hd
      by_cases h : k' = k
      · simp [dictInsert, h]
      · simp [dictInsert, h, ih]

/-- The hex digest has two characters per byte. -/
theorem length_hexPairs (bytes : List Nat) :
    (bytes.flatMap fun b => [hexLowerChar (b / 16), hexLowerChar (b % 16)]).length
      = 2 * bytes.length := by
  induction bytes with
  | nil => rfl
  | cons b rest ih =>
      simp only [List.flatMap_cons, List.length_append, List.length_cons,
        List.length_nil, List.length_flatMap] at *
      omega

/-- Upper-casing any lowercase hex digit lands in the uppercase alphabet. -/
theorem hexLowerChar_toUpper_mem (n : Nat) :
    "0123456789ABCDEF".data.contains (hexLowerChar n).toUpper = true := by
  by_cases h : n < 16
  · have hb : ∀ m, m < 16 →
        "0123456789ABCDEF".data.contains (hexLowerChar m).toUpper = true := by decide
    exact hb n h
  · have hl : ("0123456789abcdef".data).length ≤ n := by
      have h16 : ("0123456789abcdef".data).length = 16 := by decide
      omega
    unfold hexLowerChar
    rw [List.getD_eq_default _ _ hl]
    decide

/-- Every character of an upper-cased hex digest is an uppercase hex digit. -/
theorem hexChars_upper_mem (bytes : List Nat) :
    (((bytes.flatMap fun b => [hexLowerChar (b / 16), hexLowerChar (b % 16)]).map
      Char.toUpper).all (fun c => "0123456789ABCDEF".data.contains c)) = true := by
  induction bytes with
  | nil => rfl
  | cons b rest ih =>
      simp only [List.flatMap_cons, List.map_append, List.map_cons, List.map_nil,
        List.all_append, List.all_cons, List.all_nil, Bool.and_eq_true] at *
      exact ⟨⟨hexLowerChar_toUpper_mem _, hexLowerChar_toUpper_mem _, trivial⟩, ih⟩

/-! ## Claim theorems -/

/-- C1: the URL built by `_getUrl` is the fixed base host, followed by the
message `M` = path + "?" + encoded query (the query including the `devid`
entry), followed by "&signature=" and the signature computed by
`_calculateSignature` over exactly `M` with the API key as secret: the byte
sequence that is signed is exactly the transmitted path-plus-query substring,
and the signature is appended as the final query parameter. -/
theorem getUrl_signs_exactly_transmitted_message
    (devId apiKey path : String) (params : Params) :
    (getUrl devId apiKey path params).1 =
      BASE_URL ++
        (path ++ "?" ++ urlencode (dictInsert params "devid" (Value.str devId))) ++
        ("&signature=" ++
          calculateSignature apiKey
            (path ++ "?" ++ urlencode (dictInsert params "devid" (Value.str devId)))) := by
  simp [getUrl, String.append_assoc]

/-- C2 (counterexample): with one caller-supplied parameter, the first query
entry emitted is the caller parameter, not `devid` — `devid` comes last, so
the claim that `devid` is the first query key is false. -/
theorem devid_not_first_query_key :
    urlencodeList (dictInsert [("direction_id", Value.int 5)] "devid" (Value.str "3001026")) =
      ["direction_id=5", "devid=3001026"] ∧
    (urlencodeList (dictInsert [("direction_id", Value.int 5)] "devid" (Value.str "3001026"))).head? ≠
      some ("devid=3001026") := by decide

/-- C2 (amended): the `devid` credential entry is always present in the
encoded query, but it is the **last** query key emitted, appearing after
every caller-supplied parameter (so it is first only when the caller
supplied none). -/
theorem devid_always_present_emitted_last (devId : String) (params : Params)
    (h : hasKey params "devid" = false) :
    urlencodeList (dictInsert params "devid" (Value.str devId)) =
      urlencodeList params ++ [quotePlus "devid" ++ "=" ++ quotePlus devId] := by
  rw [dictInsert_of_not_hasKey params "devid" (Value.str devId) h, urlencodeList_append]
  rfl

/-- Witness for the amended C2 at a concrete dict. -/
theorem devid_always_present_emitted_last_witness :
    urlencodeList (dictInsert [("direction_id", Value.int 5)] "devid" (Value.str "3001026")) =
      urlencodeList [("direction_id", Value.int 5)] ++
        [quotePlus "devid" ++ "=" ++ quotePlus "3001026"] :=
  devid_always_present_emitted_last "3001026" [("direction_id", Value.int 5)] (by decide)

/-- C3: evaluation of the code at explicitly supplied falsy values. The
truthiness guards of `get_departures_from_stop` drop an explicitly supplied
`max_results=0` and an explicitly supplied `look_backwards=False` (no query
entry is produced), while a parameter that is not supplied indeed produces
no entry. -/
theorem falsy_supplied_params_are_dropped :
    (get_departures_from_stop 0 1071 none none none none none none
      (some (Value.int 0)) none none).2 = [] ∧
    (get_departures_from_stop 0 1071 none none none (some (Value.bool false)) none none
      none none none).2 = [] ∧
    (get_departures_from_stop 0 1071 none none none none none none
      none none none).2 = [] ∧
    (search "town hall" none none none none none none none none
      (some (Value.bool false))).2 =
      [("match_stop_by_gtfs_stop_id", Value.str "false")] := by decide

/-- C4: evaluation of the code at a supplied boolean. `look_backwards` (in
`get_departures_from_stop`) and `stop_disruptions` (in
`get_stops_for_location`) are inserted as raw booleans, so `urlencode`
renders them via `str` as the capitalised `"True"` — while `gtfs`, which
goes through the lower-casing conversion, renders as `"true"`. -/
theorem raw_bool_param_encodes_capitalised :
    (get_departures_from_stop 0 1071 none none none (some (Value.bool true)) none none
      none none none).2 = [("look_backwards", Value.bool true)] ∧
    urlencodeList [("look_backwards", Value.bool true)] = ["look_backwards=True"] ∧
    (get_stops_for_location (Value.str "-37.8182711") (Value.str "144.9648731")
      none none none (some (Value.bool true))).2 =
      [("stop_disruptions", Value.bool true)] ∧
    urlencodeList [("stop_disruptions", Value.bool true)] = ["stop_disruptions=True"] ∧
    (get_departures_from_stop 0 1071 none none none none (some (Value.bool true)) none
      none none none).2 = [("gtfs", Value.str "true")] := by decide

/-- C5: evaluation of the code at a supplied list. A raw list value such as
`route_types=[0, 3]` does produce one query entry per element, but
`get_departures_from_stop` converts its `expand` list with `str(...).lower()`
before insertion, so a supplied `expand=[\x27all\x27]` produces the single
stringified entry `expand=%5B%27all%27%5D` instead of one entry per
element. -/
theorem expand_list_param_not_split :
    urlencodeList [("route_types", Value.list [Scalar.int 0, Scalar.int 3])] =
      ["route_types=0", "route_types=3"] ∧
    (get_departures_from_stop 0 1071 none none none none none none none none
      (some (Value.list [Scalar.str "all"]))).2 =
      [("expand", Value.str "[\x27all\x27]")] ∧
    urlencodeList [("expand", Value.str "[\x27all\x27]")] = ["expand=%5B%27all%27%5D"] := by
  decide

set_option maxRecDepth 10000 in
/-- C6: for every secret and message, `_calculateSignature` yields a
40-character string of uppercase hexadecimal digits, and on the pinned test
credentials and message it equals the fixed HMAC-SHA1 vector. -/
theorem calculateSignature_uppercase_hex40_and_vector :
    (∀ apiKey path : String, (calculateSignature apiKey path).length = 40 ∧
      ((calculateSignature apiKey path).data.all
        (fun c => "0123456789ABCDEF".data.contains c)) = true) ∧
    calculateSignature "fa83ef37-71d1-49e3-afa1-b8a765327650"
        "/v3/search/flinders%20st?devid=3001026" =
      "B7D24259809BC6DD3D4D4B1E57804F30FE01892B" := by
  refine ⟨fun apiKey path => ⟨?_, ?_⟩, by decide⟩
  · show (pyUpper (hexDigest (hmacSha1 (utf8Encode apiKey) (utf8Encode path)))).length = 40
    unfold pyUpper
    rw [String.length_mk, List.length_map]
    show ((hmacSha1 (utf8Encode apiKey) (utf8Encode path)).flatMap
      fun b => [hexLowerChar (b / 16), hexLowerChar (b % 16)]).length = 40
    rw [length_hexPairs]
    have h20 : (hmacSha1 (utf8Encode apiKey) (utf8Encode path)).length = 20 := rfl
    rw [h20]
  · exact hexChars_upper_mem (hmacSha1 (utf8Encode apiKey) (utf8Encode path))

/-- C7: for every received response and every JSON parser, a 4xx/5xx status
fails with `httpError` carrying the original status code and body — and does
so independently of the parser, i.e. before any JSON parsing; a success
status with an unparseable body fails with `decodeError`; and a value is
returned only when the parser actually succeeded on the body (no default is
ever substituted for an error). -/
theorem callApi_error_propagation :
    ∀ (α : Type) (parse parseAlt : String → Except String α) (resp : HttpResponse),
      (isErrorStatus resp.status = true →
        callApi parse resp = Except.error (ApiError.httpError resp.status resp.body) ∧
        callApi parse resp = callApi parseAlt resp) ∧
      (isErrorStatus resp.status = false →
        (∀ c, parse resp.body = Except.error c →
          callApi parse resp = Except.error (ApiError.decodeError c)) ∧
        (∀ v, parse resp.body = Except.ok v → callApi parse resp = Except.ok v)) ∧
      (∀ v, callApi parse resp = Except.ok v → parse resp.body = Except.ok v) := by
  intro α parse parseAlt resp
  refine ⟨fun h => ⟨?_, ?_⟩, fun h => ⟨fun c hc => ?_, fun v hv => ?_⟩, fun v hv => ?_⟩
  · simp [callApi, h]
  · simp [callApi, h]
  · simp [callApi, h, hc]
  · simp [callApi, h, hv]
  · by_cases h : isErrorStatus resp.status
    · simp [callApi, h] at hv
    · simp [callApi, h] at hv
      cases hp : parse resp.body with
      | ok w => rw [hp] at hv; simp at hv; rw [hv]
      | error c => rw [hp] at hv; simp at hv

/-- Witness for C7: a 404 surfaces as `httpError 404` with the body, and a
200 with an unparseable body surfaces as the parser failure wrapped in
`decodeError`. -/
theorem callApi_error_propagation_witness :
    callApi (α := Nat) (fun _ => Except.error "invalid json") ⟨404, "not found"⟩ =
      Except.error (ApiError.httpError 404 "not found") ∧
    callApi (α := Nat) (fun _ => Except.error "invalid json") ⟨200, "not json"⟩ =
      Except.error (ApiError.decodeError "invalid json") :=
  ⟨((callApi_error_propagation Nat (fun _ => Except.error "invalid json")
      (fun _ => Except.error "invalid json") ⟨404, "not found"⟩).1 (by decide)).1,
   ((callApi_error_propagation Nat (fun _ => Except.error "invalid json")
      (fun _ => Except.error "invalid json") ⟨200, "not json"⟩).2.1 (by decide)).1
      "invalid json" rfl⟩

/-- C8: evaluation of the code at a concrete call. `_getUrl` does mutate the
params mapping supplied by the caller: after building the URL for an empty
caller dict, the dict has gained the `devid` entry, so it is no longer equal
to the mapping that was passed in. -/
theorem getUrl_mutates_caller_params :
    (getUrl "3001026" "fa83ef37-71d1-49e3-afa1-b8a765327650" "/v3/routes" []).2 =
      [("devid", Value.str "3001026")] ∧
    (getUrl "3001026" "fa83ef37-71d1-49e3-afa1-b8a765327650" "/v3/routes" []).2 ≠
      ([] : Params) := by decide

/-- C9: URL construction is deterministic. As a pure function of the
developer id, API key, path and params dict, `_getUrl` trivially returns
byte-identical URLs on identical inputs; the theorem proves the stronger
repeated-call form that survives the dict mutation of C8: calling `_getUrl`
again on the dict state left by a first call yields the byte-identical URL
(and the identical dict), because re-assigning `devid` is idempotent. -/
theorem getUrl_repeated_calls_identical (devId apiKey path : String) (params : Params) :
    getUrl devId apiKey path ((getUrl devId apiKey path params).2) =
      getUrl devId apiKey path params := by
  simp [getUrl, dictInsert_idem]

/-- C10: in `get_outlets` the location path segment is appended exactly when
both coordinates are supplied and truthy; when they are not both truthy
(in particular when exactly one is supplied), the whole request — path and
params — is the one built with no coordinates at all, so a lone supplied
coordinate contributes nothing. -/
theorem get_outlets_location_requires_both_coords
    (latitude longitude max_distance max_results : Option Value) :
    ((optTruthy latitude && optTruthy longitude) = true →
      (get_outlets latitude longitude max_distance max_results).1 =
        "/v3/outlets/location/" ++ pyStrOpt latitude ++ "," ++ pyStrOpt longitude) ∧
    ((optTruthy latitude && optTruthy longitude) = false →
      get_outlets latitude longitude max_distance max_results =
        get_outlets none none max_distance max_results) := by
  constructor
  · intro h
    simp [get_outlets, h, String.append_assoc]
  · intro h
    simp [get_outlets, h]
    rfl

/-- Witness for C10: with both coordinates supplied the location segment is
built; with only a latitude supplied the call equals the coordinate-free
call. -/
theorem get_outlets_location_requires_both_coords_witness :
    (get_outlets (some (Value.str "-37.8182711")) (some (Value.str "144.9648731"))
        none none).1 =
      "/v3/outlets/location/" ++ pyStrOpt (some (Value.str "-37.8182711")) ++ "," ++
        pyStrOpt (some (Value.str "144.9648731")) ∧
    get_outlets (some (Value.str "-37.8182711")) none none none =
      get_outlets none none none none :=
  ⟨(get_outlets_location_requires_both_coords (some (Value.str "-37.8182711"))
      (some (Value.str "144.9648731")) none none).1 (by decide),
   (get_outlets_location_requires_both_coords (some (Value.str "-37.8182711"))
      none none none).2 (by decide)⟩
